import Mathlib

/-
Verification development for the derived-metrics and filtering engine of the
project-management dashboard (src/app.py).

The Python source is shallowly embedded: dates are modelled as integer day
ordinals, currency values as rationals, and the document collection as a list
of records.  Python string and number primitives used by the code under study
(str.replace, str.strip, int(...), float(...), round(x, 2)) are embedded
faithfully below.
-/

-- ===========================================================================
-- Python string primitives
-- ===========================================================================

/-- Whitespace characters stripped by Python str.strip with no argument
(restricted to the ASCII range, which covers every string the app builds). -/
def isPySpace (c : Char) : Bool :=
  c = ' ' ∨ c = '\t' ∨ c = '\n' ∨ c = '\r' ∨ c = '\x0b' ∨ c = '\x0c'

def pyStripList (cs : List Char) : List Char :=
  ((cs.dropWhile isPySpace).reverse.dropWhile isPySpace).reverse

/-- Python str.strip() with no argument. -/
def pyStrip (s : String) : String := ⟨pyStripList s.toList⟩

/-- Python str.replace: scans left to right, replacing each non-overlapping
occurrence of the (non-empty) pattern.  Fuel-indexed so the definition is
structural and reduces in the kernel; the wrapper supplies enough fuel (one
unit per input character). -/
def pyReplaceFuel (pat rep : List Char) : Nat → List Char → List Char
  | 0, l => l
  | _ + 1, [] => []
  | n + 1, c :: cs =>
    if pat ≠ [] ∧ pat.isPrefixOf (c :: cs) then
      rep ++ pyReplaceFuel pat rep n (cs.drop (pat.length - 1))
    else
      c :: pyReplaceFuel pat rep n cs

/-- Python str.replace(pat, rep) (for non-empty pat, the only use here). -/
def pyReplace (s pat rep : String) : String :=
  ⟨pyReplaceFuel pat.toList rep.toList s.toList.length s.toList⟩

/-- Bytewise-lexicographic order on strings, as MongoDB compares the UTF-8
encodings of string keys when sorting (on codepoints the two orders agree). -/
def lexLt : List Char → List Char → Bool
  | [], [] => false
  | [], _ :: _ => true
  | _ :: _, [] => false
  | a :: as, b :: bs => if a < b then true else if b < a then false else lexLt as bs

def strLt (a b : String) : Bool := lexLt a.toList b.toList

-- ===========================================================================
-- Python int(...) on strings
-- ===========================================================================

def digitVal (c : Char) : Nat := c.toNat - 48

/-- Tail of a Python digit run with PEP 515 underscores: after the first
digit, each underscore must be followed by a digit. -/
def digitPartRest : List Char → Bool
  | [] => true
  | '_' :: c :: cs => c.isDigit && digitPartRest cs
  | c :: cs => c.isDigit && digitPartRest cs

/-- A Python digit run: non-empty, starts with a digit, underscores only
between digits. -/
def digitPart (cs : List Char) : Bool :=
  match cs with
  | [] => false
  | c :: rest => c.isDigit && digitPartRest rest

/-- Numeric value of a digit run, ignoring underscores. -/
def digitsVal (cs : List Char) : Nat :=
  cs.foldl (fun n c => if c.isDigit then 10 * n + digitVal c else n) 0

/-- Number of digit characters (underscores excluded). -/
def numDigits (cs : List Char) : Nat := (cs.filter Char.isDigit).length

/-- Optional sign followed by a digit run (core of Python int(...), also the
exponent part of a float literal). -/
def pyParseIntCore (cs : List Char) : Option Int :=
  match cs with
  | '+' :: rest => if digitPart rest then some (digitsVal rest) else none
  | '-' :: rest => if digitPart rest then some (-(digitsVal rest : Int)) else none
  | rest => if digitPart rest then some (digitsVal rest) else none

/-- Python int(s) for a string argument in base 10: surrounding whitespace is
permitted, then an optional sign and a digit run; anything else raises
ValueError, modelled as none. -/
def pyParseInt (s : String) : Option Int := pyParseIntCore (pyStrip s).toList

-- ===========================================================================
-- Python float(...) on strings
-- ===========================================================================

/-- A Python float result: a finite value (modelled exactly as a rational),
one of the two infinities, or nan. -/
inductive PyFloat where
  | finite (q : ℚ)
  | posInf
  | negInf
  | nan
deriving DecidableEq, Repr

def pyNegF : PyFloat → PyFloat
  | .finite q => .finite (-q)
  | .posInf => .negInf
  | .negInf => .posInf
  | .nan => .nan

/-- Mantissa of a float literal: digits, or a dot with digits on at least one
side.  Returns the scaled integer value together with the number of decimal
places, so the mantissa stands for (value, places) = value / 10 ^ places. -/
def parseMantissa (cs : List Char) : Option (Int × Nat) :=
  let ip := cs.takeWhile (fun c => c ≠ '.')
  let rest := cs.dropWhile (fun c => c ≠ '.')
  match rest with
  | [] => if digitPart ip then some ((digitsVal ip : Int), 0) else none
  | _ :: fp =>
    if (ip = [] ∨ digitPart ip) ∧ (fp = [] ∨ digitPart fp) ∧ ¬(ip = [] ∧ fp = []) then
      some (((digitsVal ip * 10 ^ numDigits fp + digitsVal fp : Nat) : Int), numDigits fp)
    else none

/-- Unsigned part of Python float(s): the special spellings inf, infinity and
nan (case already lowered by the caller), or a mantissa with an optional
exponent. -/
def parseAbsFloat (cs : List Char) : Option PyFloat :=
  if cs = "inf".toList ∨ cs = "infinity".toList then some .posInf
  else if cs = "nan".toList then some .nan
  else
    let mant := cs.takeWhile (fun c => c ≠ 'e')
    let rest := cs.dropWhile (fun c => c ≠ 'e')
    match rest with
    | [] => (parseMantissa mant).map (fun p => .finite (Rat.divInt p.1 (Int.pow 10 p.2)))
    | _ :: ex =>
      match parseMantissa mant, pyParseIntCore ex with
      | some p, some e =>
        if 0 ≤ e then some (.finite (Rat.divInt (p.1 * Int.pow 10 e.toNat) (Int.pow 10 p.2)))
        else some (.finite (Rat.divInt p.1 (Int.pow 10 (p.2 + (-e).toNat))))
      | _, _ => none

/-- Python float(s) for a string argument: strip whitespace, case-fold, an
optional sign, then the unsigned form; anything else raises ValueError,
modelled as none. -/
def pyParseFloat (s : String) : Option PyFloat :=
  match (pyStrip s).toList.map Char.toLower with
  | '+' :: rest => parseAbsFloat rest
  | '-' :: rest => (parseAbsFloat rest).map pyNegF
  | rest => parseAbsFloat rest

-- ===========================================================================
-- Python round(x, 2)
-- ===========================================================================

/-- Python round-half-to-even on an exact value. -/
def roundHalfEven (q : ℚ) : ℤ :=
  let f := ⌊q⌋
  let r := q - (f : ℚ)
  if r < 1 / 2 then f
  else if 1 / 2 < r then f + 1
  else if f % 2 = 0 then f else f + 1

/-- Python round(x, 2), modelled on exact rationals. -/
def pyRound2 (q : ℚ) : ℚ := (roundHalfEven (q * 100) : ℚ) / 100

-- ===========================================================================
-- src/app.py: auxiliary functions
-- ===========================================================================

/-- parse_currency_input (src/app.py lines 102-107).  The argument is the text
of a form field; none stands for a non-string value (whose missing .replace
raises AttributeError).  Both AttributeError and ValueError are caught and
mapped to 0.0. -/
def parse_currency_input (text_input : Option String) : PyFloat :=
  match text_input with
  | none => .finite 0
  | some s =>
    match pyParseFloat (pyStrip (pyReplace (pyReplace (pyReplace s "R$" "") "." "") "," ".")) with
    | some v => v
    | none => .finite 0

/-- calcular_progresso (src/app.py lines 73-90).  Dates are integer day
ordinals; none models a missing date.  The source reads date.today() itself;
the evaluation instant hoje is passed explicitly here. -/
def calcular_progresso (data_inicio data_termino : Option ℤ) (hoje : ℤ) : ℚ :=
  match data_inicio, data_termino with
  | some di, some dt =>
    if dt < di then 0
    else
      let dias_totais : ℤ := dt - di
      if dias_totais ≤ 0 then (if dt ≤ hoje then 100 else 0)
      else if hoje ≤ di then 0
      else if dt ≤ hoje then 100
      else
        let dias_passados : ℤ := hoje - di
        pyRound2 ((dias_passados : ℚ) / (dias_totais : ℚ) * 100)
  | _, _ => 0

/-- The identifier MongoDB hands back for find_one(sort ID_Projeto
descending) over a non-empty collection: the greatest id in bytewise
string order. -/
def lexMax (x : String) (xs : List String) : String :=
  xs.foldl (fun a b => if strLt a b then b else a) x

/-- Python f-string 03d formatting: zero-pad the decimal form to an overall
width of three characters, sign included; longer numbers are not truncated. -/
def pad3 (n : ℤ) : String :=
  let sign := if n < 0 then "-" else ""
  let ds := toString n.natAbs
  let zeros : Nat := 3 - (sign.length + ds.length)
  sign ++ String.mk (List.replicate zeros '0') ++ ds

/-- gerar_id_otimizado (src/app.py lines 180-192) over the list of ID_Projeto
values in the collection.  An empty collection yields PROJ001; otherwise only
the sort-descending maximum id is consulted: every occurrence of PROJ is
removed from it and the remainder fed to int(...), falling back to PROJ001
when that raises. -/
def gerar_id_otimizado (ids : List String) : String :=
  match ids with
  | [] => "PROJ001"
  | x :: xs =>
    let ultimo_id := lexMax x xs
    match pyParseInt (pyReplace ultimo_id "PROJ" "") with
    | some num => "PROJ" ++ pad3 (num + 1)
    | none => "PROJ001"

/-- Modelled from the spec (section 4.4), not from the source: the spec's
next_id parses the numeric suffix of every id matching the fixed pattern
(prefix PROJ followed by digits), ignores the rest, and returns the prefix
with the successor of the maximal suffix, zero-padded to width 3; with no
matching id it returns PROJ001.  Used only for comparison with
gerar_id_otimizado. -/
def specNextId (ids : List String) : String :=
  let suffixes := ids.filterMap (fun s =>
    let cs := s.toList
    if cs.take 4 = "PROJ".toList ∧ (cs.drop 4) ≠ [] ∧ (cs.drop 4).all Char.isDigit then
      some (digitsVal (cs.drop 4))
    else none)
  match suffixes with
  | [] => "PROJ" ++ pad3 1
  | n :: ns => "PROJ" ++ pad3 ((ns.foldl max n : Nat) + 1)


-- ===========================================================================
-- Data model
-- ===========================================================================

/-- A project document, restricted to the fields the specified core reads or
writes.  Status, Empresa and Responsavel may be absent on documents loaded
from the store (pandas pd.NA), hence Option. -/
structure Projeto where
  id_projeto : String
  empresa : Option String
  responsavel : Option String
  status : Option String
  tem_orcamento : Bool
  linha_base : Bool
  orcamento : ℚ
  baseline : ℚ
  melhor_proposta : ℚ
  preco_inicial : ℚ
  preco_final : ℚ
  saving_r : ℚ
  saving_percent : ℚ
  ce_baseline : ℚ
  percent_baseline : ℚ
  ce_r : ℚ
  percent_ce : ℚ
  data_inicio : ℤ
  data_termino : ℤ
  dias : ℤ
  progresso_porcentagem : ℚ
deriving DecidableEq, Repr

/-- The six derived KPI fields. -/
structure KpiResult where
  saving_r : ℚ
  saving_percent : ℚ
  ce_baseline : ℚ
  percent_baseline : ℚ
  ce_r : ℚ
  percent_ce : ℚ
deriving DecidableEq, Repr

/-- The KPI recomputation block of the Editar form (src/app.py lines
515-520); the Cadastrar form (lines 390-409) computes the same values, which
theorem c9_invariante_derivados below establishes. -/
def computeKpis (tem_orcamento linha_base : Bool)
    (orcamento baseline melhor_proposta preco_inicial preco_final : ℚ) : KpiResult :=
  let saving_r : ℚ := if tem_orcamento then orcamento - melhor_proposta else 0
  let saving_percent : ℚ :=
    if tem_orcamento ∧ orcamento ≠ 0 then saving_r / orcamento * 100 else 0
  let ce_baseline : ℚ := if linha_base then baseline - melhor_proposta else 0
  let percent_baseline : ℚ :=
    if linha_base ∧ baseline ≠ 0 then ce_baseline / baseline * 100 else 0
  let ce_r : ℚ := if ¬(tem_orcamento ∨ linha_base) then preco_inicial - preco_final else 0
  let percent_ce : ℚ :=
    if ¬(tem_orcamento ∨ linha_base) ∧ preco_inicial ≠ 0 then ce_r / preco_inicial * 100 else 0
  ⟨saving_r, saving_percent, ce_baseline, percent_baseline, ce_r, percent_ce⟩

-- ===========================================================================
-- aplicar_filtros_projetos (src/app.py lines 197-218)
-- ===========================================================================

/-- pandas Series.isin against a row field: an absent value matches nothing
(the multiselect options are built with dropna, so NA is never an option). -/
def optMem (v : Option String) (l : List String) : Bool :=
  match v with
  | some s => l.contains s
  | none => false

/-- aplicar_filtros_projetos.  Each multiselect yields a list; Python
truthiness makes the empty list mean no filter.  df_base.copy() is the
identity under value semantics, and each isin step keeps the surviving rows
in their original order. -/
def aplicar_filtros_projetos (df_base : List Projeto)
    (filtro_status filtro_empresa filtro_responsavel : List String) : List Projeto :=
  let d0 := df_base
  let d1 := if filtro_status = [] then d0 else d0.filter (fun p => optMem p.status filtro_status)
  let d2 := if filtro_empresa = [] then d1 else d1.filter (fun p => optMem p.empresa filtro_empresa)
  if filtro_responsavel = [] then d2 else d2.filter (fun p => optMem p.responsavel filtro_responsavel)

-- ===========================================================================
-- Cadastrar Projeto (src/app.py lines 346-448)
-- ===========================================================================

/-- The fields of the Cadastrar and Editar forms that the specified core
consumes.  The five currency amounts are the parse_currency_input results of
the respective text inputs; a hidden input contributes nothing because the
corresponding Python variable keeps its initial 0. -/
structure CadastroForm where
  empresa : String
  responsavel : String
  status : String
  tem_orcamento : Bool
  linha_base : Bool
  orcamento_input : ℚ
  baseline_input : ℚ
  melhor_proposta_input : ℚ
  preco_inicial_input : ℚ
  preco_final_input : ℚ
  data_inicio : ℤ
  data_termino : ℤ
deriving DecidableEq, Repr

/-- The projeto document built by the Cadastrar form (lines 355-440): widgets
for amounts outside the active mode are not rendered, so those variables keep
their initial 0; the derived fields follow lines 390-409. -/
def cadastrarProjeto (ids : List String) (f : CadastroForm) (hoje : ℤ) : Projeto :=
  let tem := f.tem_orcamento
  let lb := f.linha_base
  let orcamento : ℚ := if tem then f.orcamento_input else 0
  let baseline : ℚ := if lb then f.baseline_input else 0
  let melhor_proposta : ℚ := if tem ∨ lb then f.melhor_proposta_input else 0
  let preco_inicial : ℚ := if ¬(tem ∨ lb) then f.preco_inicial_input else 0
  let preco_final : ℚ := if ¬(tem ∨ lb) then f.preco_final_input else 0
  let ce_r : ℚ := if ¬(tem ∨ lb) then preco_inicial - preco_final else 0
  let percent_ce : ℚ :=
    if ¬(tem ∨ lb) then (if preco_inicial ≠ 0 then ce_r / preco_inicial * 100 else 0) else 0
  let saving_r : ℚ := if tem then orcamento - melhor_proposta else 0
  let saving_percent : ℚ :=
    if tem then (if orcamento ≠ 0 then saving_r / orcamento * 100 else 0) else 0
  let ce_baseline : ℚ := if lb then baseline - melhor_proposta else 0
  let percent_baseline : ℚ :=
    if lb then (if baseline ≠ 0 then ce_baseline / baseline * 100 else 0) else 0
  { id_projeto := gerar_id_otimizado ids
    empresa := some f.empresa
    responsavel := some f.responsavel
    status := some f.status
    tem_orcamento := tem
    linha_base := lb
    orcamento := orcamento
    baseline := baseline
    melhor_proposta := melhor_proposta
    preco_inicial := preco_inicial
    preco_final := preco_final
    saving_r := saving_r
    saving_percent := saving_percent
    ce_baseline := ce_baseline
    percent_baseline := percent_baseline
    ce_r := ce_r
    percent_ce := percent_ce
    data_inicio := f.data_inicio
    data_termino := f.data_termino
    dias := f.data_termino - f.data_inicio
    progresso_porcentagem := calcular_progresso (some f.data_inicio) (some f.data_termino) hoje }

/-- Outcome of a submit handler: the collection afterwards and the error
message shown, if any. -/
structure SubmitResult where
  store : List Projeto
  erro : Option String
deriving DecidableEq, Repr

/-- The Cadastrar submit handler (lines 421-448): an inverted date window is
reported and nothing is inserted; otherwise the built document is appended
(insert_one). -/
def cadastrarSubmit (store : List Projeto) (f : CadastroForm) (hoje : ℤ) : SubmitResult :=
  if f.data_termino < f.data_inicio then
    ⟨store, some "A data de termino nao pode ser anterior a data de inicio."⟩
  else
    ⟨store ++ [cadastrarProjeto (store.map (fun p => p.id_projeto)) f hoje], none⟩

-- ===========================================================================
-- Editar/Excluir (src/app.py lines 450-593)
-- ===========================================================================

/-- The document produced by the Editar form for an existing record (lines
468-571): every field except the immutable ID_Projeto is replaced, the
amounts are re-zeroed by mode (lines 493-512) and the derived fields
recomputed (lines 515-520). -/
def editarProjeto (old : Projeto) (f : CadastroForm) (hoje : ℤ) : Projeto :=
  let tem := f.tem_orcamento
  let lb := f.linha_base
  let orcamento : ℚ := if tem then f.orcamento_input else 0
  let baseline : ℚ := if lb then f.baseline_input else 0
  let melhor_proposta : ℚ := if tem ∨ lb then f.melhor_proposta_input else 0
  let preco_inicial : ℚ := if ¬(tem ∨ lb) then f.preco_inicial_input else 0
  let preco_final : ℚ := if ¬(tem ∨ lb) then f.preco_final_input else 0
  let k := computeKpis tem lb orcamento baseline melhor_proposta preco_inicial preco_final
  { id_projeto := old.id_projeto
    empresa := some f.empresa
    responsavel := some f.responsavel
    status := some f.status
    tem_orcamento := tem
    linha_base := lb
    orcamento := orcamento
    baseline := baseline
    melhor_proposta := melhor_proposta
    preco_inicial := preco_inicial
    preco_final := preco_final
    saving_r := k.saving_r
    saving_percent := k.saving_percent
    ce_baseline := k.ce_baseline
    percent_baseline := k.percent_baseline
    ce_r := k.ce_r
    percent_ce := k.percent_ce
    data_inicio := f.data_inicio
    data_termino := f.data_termino
    dias := f.data_termino - f.data_inicio
    progresso_porcentagem := calcular_progresso (some f.data_inicio) (some f.data_termino) hoje }

/-- MongoDB update_one: rewrite the first document whose ID_Projeto equals
the selected id, leaving all others in place. -/
def updateOne (sel : String) (f : CadastroForm) (hoje : ℤ) : List Projeto → List Projeto
  | [] => []
  | p :: ps =>
    if p.id_projeto = sel then editarProjeto p f hoje :: ps
    else p :: updateOne sel f hoje ps

/-- The Editar submit handler (lines 553-581): an inverted date window is
reported and nothing is updated; otherwise the selected document is replaced
in place. -/
def editarSubmit (store : List Projeto) (projeto_selecionado : String)
    (f : CadastroForm) (hoje : ℤ) : SubmitResult :=
  if f.data_termino < f.data_inicio then
    ⟨store, some "A data de termino nao pode ser anterior a data de inicio."⟩
  else
    ⟨updateOne projeto_selecionado f hoje store, none⟩

-- ===========================================================================
-- Invariant predicates (claim C9) and sample data for concrete checks
-- ===========================================================================

/-- The stored derived fields coincide with the KPI recomputation from the
stored base amounts and the two mode flags. -/
def derivadosRecalculados (p : Projeto) : Prop :=
  computeKpis p.tem_orcamento p.linha_base p.orcamento p.baseline p.melhor_proposta
      p.preco_inicial p.preco_final =
    ⟨p.saving_r, p.saving_percent, p.ce_baseline, p.percent_baseline, p.ce_r, p.percent_ce⟩

/-- The base amounts outside the active financial mode are zero. -/
def modosZerados (p : Projeto) : Prop :=
  (p.tem_orcamento = false → p.orcamento = 0) ∧
  (p.linha_base = false → p.baseline = 0) ∧
  (p.tem_orcamento = false ∧ p.linha_base = false → p.melhor_proposta = 0) ∧
  ((p.tem_orcamento = true ∨ p.linha_base = true) → p.preco_inicial = 0 ∧ p.preco_final = 0)

/-- A concrete completed project, used for concrete instantiations. -/
def projA : Projeto :=
  { id_projeto := "PROJ001", empresa := some "A", responsavel := some "X",
    status := some "Concluido", tem_orcamento := false, linha_base := false,
    orcamento := 0, baseline := 0, melhor_proposta := 0, preco_inicial := 0,
    preco_final := 0, saving_r := 0, saving_percent := 0, ce_baseline := 0,
    percent_baseline := 0, ce_r := 0, percent_ce := 0, data_inicio := 0,
    data_termino := 1, dias := 1, progresso_porcentagem := 0 }

/-- A concrete delayed project of another company. -/
def projB : Projeto :=
  { id_projeto := "PROJ002", empresa := some "B", responsavel := some "X",
    status := some "Atrasado", tem_orcamento := false, linha_base := false,
    orcamento := 0, baseline := 0, melhor_proposta := 0, preco_inicial := 0,
    preco_final := 0, saving_r := 0, saving_percent := 0, ce_baseline := 0,
    percent_baseline := 0, ce_r := 0, percent_ce := 0, data_inicio := 0,
    data_termino := 1, dias := 1, progresso_porcentagem := 0 }

/-- A concrete submission with an inverted date window. -/
def formDatasInvertidas : CadastroForm :=
  { empresa := "ALPHA MATRIZ", responsavel := "TATIANE", status := "A Iniciar",
    tem_orcamento := false, linha_base := false, orcamento_input := 0,
    baseline_input := 0, melhor_proposta_input := 0, preco_inicial_input := 0,
    preco_final_input := 0, data_inicio := 5, data_termino := 3 }

/-- A concrete budget-mode submission. -/
def formOrcamento : CadastroForm :=
  { empresa := "POSTOS GULF", responsavel := "LILIAN", status := "Em andamento",
    tem_orcamento := true, linha_base := false, orcamento_input := 1000,
    baseline_input := 0, melhor_proposta_input := 800, preco_inicial_input := 0,
    preco_final_input := 0, data_inicio := 0, data_termino := 10 }

-- ===========================================================================
-- Sanity examples for the embedded primitives
-- ===========================================================================

example : pyReplace "R$ 1.234,56" "R$" "" = " 1.234,56" := by decide
example : pyParseInt "003" = some 3 := by decide
example : pyParseInt "ZGARBAGE" = none := by decide
example : pyParseFloat "1234.56" = some (.finite (Rat.divInt 123456 100)) := by decide
example : pyParseFloat "-1.5e1" = some (.finite (Rat.divInt (-150) 10)) := by decide
example : pyParseFloat "abc" = none := by decide
example : pyParseFloat "INF" = some .posInf := by decide
example : strLt "PROJ001" "PROJ003" = true := by decide
example : strLt "ZGARBAGE" "PROJ003" = false := by decide
example : pyRound2 (100 * (4 : ℚ) / 10) = 40 := by
  norm_num [pyRound2, roundHalfEven]
example : pyRound2 (125 / 1000) = 12 / 100 := by
  norm_num [pyRound2, roundHalfEven]
example : gerar_id_otimizado [] = "PROJ001" := by decide
example : gerar_id_otimizado ["PROJ001", "PROJ003", "GARBAGE"] = "PROJ004" := by decide
example : specNextId ["PROJ001", "PROJ003", "GARBAGE"] = "PROJ004" := by decide
example : gerar_id_otimizado ["PROJ001", "PROJ003", "ZGARBAGE"] = "PROJ001" := by decide
example : specNextId ["PROJ001", "PROJ003", "ZGARBAGE"] = "PROJ004" := by decide

-- ===========================================================================
-- Claim C5 — all-unset filter is the identity
-- ===========================================================================

/-- C5: aplicar_filtros_projetos with every criterion unset returns the input
record list unchanged, members and order intact; the empty multiselect list is
the very value meaning unset, so an empty supplied set matches all records
rather than none. -/
theorem c5_filtros_vazios (recs : List Projeto) :
    aplicar_filtros_projetos recs [] [] [] = recs := by
  simp [aplicar_filtros_projetos]

-- ===========================================================================
-- Claim C6 — non-empty criteria combine by AND, stably, without mutation
-- ===========================================================================

/-- C6: for every record list and non-empty status, company and responsible
criteria, aplicar_filtros_projetos returns exactly the records whose field
value is a member of each supplied set, combined by logical AND, as one stable
filter pass over the input in its original order; the input list itself is
untouched (the embedding is pure and the source works on a copy). -/
theorem c6_filtros_conjuncao (recs : List Projeto) (fs fe fr : List String)
    (hs : fs ≠ []) (he : fe ≠ []) (hr : fr ≠ []) :
    aplicar_filtros_projetos recs fs fe fr =
      recs.filter (fun p =>
        optMem p.status fs && optMem p.empresa fe && optMem p.responsavel fr) := by
  simp only [aplicar_filtros_projetos, if_neg hs, if_neg he, if_neg hr, List.filter_filter]
  refine List.filter_congr fun p _ => ?_
  cases optMem p.status fs <;> cases optMem p.empresa fe <;> cases optMem p.responsavel fr <;> rfl

/-- Witness for C6 at the spec's end-to-end scenario. -/
theorem c6_filtros_conjuncao_testemunha :
    aplicar_filtros_projetos [projA, projB] ["Concluido"] ["A"] ["X"] =
      List.filter (fun p =>
        optMem p.status ["Concluido"] && optMem p.empresa ["A"] && optMem p.responsavel ["X"])
        [projA, projB] :=
  c6_filtros_conjuncao [projA, projB] ["Concluido"] ["A"] ["X"]
    (by decide) (by decide) (by decide)

-- ===========================================================================
-- Claim C1 — saving percent (corrected: the denominator is the budget)
-- ===========================================================================

/-- C1 counterexample: at has_budget = true, budget = 1000, best_proposal =
800, the claim demands saving_percent = 25, but the code divides the saving by
the budget (src/app.py line 402) and produces 20. -/
theorem c1_contraexemplo :
    (computeKpis true false 1000 0 800 0 0).saving_r = 200 ∧
    (computeKpis true false 1000 0 800 0 0).saving_percent = 20 ∧
    ((20 : ℚ) ≠ 25) := by
  refine ⟨?_, ?_, by norm_num⟩ <;> norm_num [computeKpis]

/-- C1 amended: for has_budget = true the code returns saving_amount =
budget - best_proposal, and saving_percent = (saving_amount / budget) * 100
when budget is non-zero and 0 when budget = 0 (so the example with budget =
1000, best_proposal = 800 yields 200 and 20.0, not 25.0). -/
theorem c1_emendado (lb : Bool) (orcamento baseline melhor_proposta pi pf : ℚ) :
    (computeKpis true lb orcamento baseline melhor_proposta pi pf).saving_r
      = orcamento - melhor_proposta ∧
    (orcamento ≠ 0 →
      (computeKpis true lb orcamento baseline melhor_proposta pi pf).saving_percent
        = (orcamento - melhor_proposta) / orcamento * 100) ∧
    (orcamento = 0 →
      (computeKpis true lb orcamento baseline melhor_proposta pi pf).saving_percent = 0) := by
  refine ⟨by simp [computeKpis], fun h => ?_, fun h => ?_⟩ <;> simp [computeKpis, h]

/-- Witness for C1 amended at the end-to-end example of the spec. -/
theorem c1_emendado_testemunha :
    (computeKpis true false 1000 0 800 0 0).saving_percent = (1000 - 800) / 1000 * 100 :=
  (c1_emendado false 1000 0 800 0 0).2.1 (by norm_num)

-- ===========================================================================
-- Claim C4 — baseline cost avoidance (corrected: denominator is the baseline)
-- ===========================================================================

/-- C4 counterexample: at has_baseline = true, baseline = 1000, best_proposal
= 800, the claim demands cost_avoidance_baseline_percent = (200 / 800) * 100 =
25, but the code divides by the baseline (src/app.py lines 407 and 518) and
produces 20. -/
theorem c4_contraexemplo :
    (computeKpis false true 0 1000 800 0 0).ce_baseline = 200 ∧
    (computeKpis false true 0 1000 800 0 0).percent_baseline = 20 ∧
    ((200 : ℚ) / 800 * 100 = 25) := by
  refine ⟨?_, ?_, by norm_num⟩ <;> norm_num [computeKpis]

/-- C4 amended: for has_baseline = true the code returns
cost_avoidance_baseline_amount = baseline - best_proposal, and the percent is
(amount / baseline) * 100 when baseline is non-zero, else 0; both fields are 0
when has_baseline is false. -/
theorem c4_emendado (tb : Bool) (orcamento baseline melhor_proposta pi pf : ℚ) :
    (computeKpis tb true orcamento baseline melhor_proposta pi pf).ce_baseline
      = baseline - melhor_proposta ∧
    (baseline ≠ 0 →
      (computeKpis tb true orcamento baseline melhor_proposta pi pf).percent_baseline
        = (baseline - melhor_proposta) / baseline * 100) ∧
    (baseline = 0 →
      (computeKpis tb true orcamento baseline melhor_proposta pi pf).percent_baseline = 0) ∧
    (computeKpis tb false orcamento baseline melhor_proposta pi pf).ce_baseline = 0 ∧
    (computeKpis tb false orcamento baseline melhor_proposta pi pf).percent_baseline = 0 := by
  refine ⟨by simp [computeKpis], fun h => ?_, fun h => ?_, by simp [computeKpis], by simp [computeKpis]⟩ <;>
    simp [computeKpis, h]

/-- Witness for C4 amended at baseline 1000, best proposal 800. -/
theorem c4_emendado_testemunha :
    (computeKpis false true 0 1000 800 0 0).percent_baseline = (1000 - 800) / 1000 * 100 :=
  (c4_emendado false 0 1000 800 0 0).2.1 (by norm_num)

-- ===========================================================================
-- Claim C2 — id generation (corrected: only the maximal id is consulted)
-- ===========================================================================

/-- C2 counterexample: with existing ids PROJ001, PROJ003 and ZGARBAGE the
claim demands that the garbage id be ignored and PROJ004 returned, but the
code consults only the sort-descending maximum ZGARBAGE, fails to parse it,
and falls back to PROJ001 (the spec-modelled generator specNextId shows the
claimed value). -/
theorem c2_contraexemplo :
    gerar_id_otimizado ["PROJ001", "PROJ003", "ZGARBAGE"] = "PROJ001" ∧
    specNextId ["PROJ001", "PROJ003", "ZGARBAGE"] = "PROJ004" ∧
    ("PROJ001" : String) ≠ "PROJ004" := by
  exact ⟨by decide, by decide, by decide⟩

/-- C2 amended: the generator consults only the lexicographically greatest
existing id — gerar_id_otimizado over a non-empty collection equals
gerar_id_otimizado over that single id (stripping PROJ and applying int(...)
+ 1 with zero-padding, falling back to PROJ001 when the parse fails); an
empty collection yields PROJ001, and the spec example with GARBAGE still
holds because GARBAGE sorts below the PROJ ids. -/
theorem c2_emendado (x : String) (xs : List String) :
    gerar_id_otimizado (x :: xs) = gerar_id_otimizado [lexMax x xs] ∧
    gerar_id_otimizado [] = "PROJ001" ∧
    gerar_id_otimizado ["PROJ001", "PROJ003", "GARBAGE"] = "PROJ004" := by
  refine ⟨?_, by decide, by decide⟩
  rfl

-- ===========================================================================
-- Claims C3 and C8 — progress calculator
-- ===========================================================================

/-- Unfolding of calcular_progresso on present dates. -/
theorem calcular_progresso_some (di dt hoje : ℤ) :
    calcular_progresso (some di) (some dt) hoje =
      if dt < di then 0
      else if dt - di ≤ 0 then (if dt ≤ hoje then 100 else 0)
      else if hoje ≤ di then 0
      else if dt ≤ hoje then 100
      else pyRound2 (((hoje - di : ℤ) : ℚ) / ((dt - di : ℤ) : ℚ) * 100) := rfl

/-- Round-half-to-even returns the floor or its successor. -/
theorem roundHalfEven_cases (q : ℚ) :
    roundHalfEven q = ⌊q⌋ ∨ roundHalfEven q = ⌊q⌋ + 1 := by
  simp only [roundHalfEven]
  split_ifs <;> simp

/-- pyRound2 keeps a value of [0, 100) inside [0, 100]. -/
theorem pyRound2_mem_Icc (q : ℚ) (h0 : 0 ≤ q) (h1 : q < 100) :
    0 ≤ pyRound2 q ∧ pyRound2 q ≤ 100 := by
  have hf0 : (0 : ℤ) ≤ ⌊q * 100⌋ := Int.floor_nonneg.mpr (by positivity)
  have hf1 : ⌊q * 100⌋ < 10000 := by
    rw [Int.floor_lt]
    push_cast
    nlinarith
  have hle : roundHalfEven (q * 100) ≤ 10000 := by
    rcases roundHalfEven_cases (q * 100) with h | h <;> omega
  have hge : (0 : ℤ) ≤ roundHalfEven (q * 100) := by
    rcases roundHalfEven_cases (q * 100) with h | h <;> omega
  unfold pyRound2
  constructor
  · apply div_nonneg _ (by norm_num)
    exact_mod_cast hge
  · rw [div_le_iff₀ (by norm_num : (0 : ℚ) < 100)]
    norm_num
    exact_mod_cast hle

/-- C3: calcular_progresso returns 0 when a date is missing; 0 whenever the
window is inverted, independent of the day; for a zero-length window 100 from
the end date on and 0 before it; for a proper window 0 up to the start date,
100 from the end date on, and otherwise the two-decimal rounding of the
linear interpolation over whole-day differences — establishing each branch in
the order the source checks them. -/
theorem c3_progresso_ramos (di dt hoje : ℤ) :
    calcular_progresso none none hoje = 0 ∧
    calcular_progresso none (some dt) hoje = 0 ∧
    calcular_progresso (some di) none hoje = 0 ∧
    (dt < di → calcular_progresso (some di) (some dt) hoje = 0) ∧
    (dt = di → dt ≤ hoje → calcular_progresso (some di) (some dt) hoje = 100) ∧
    (dt = di → hoje < dt → calcular_progresso (some di) (some dt) hoje = 0) ∧
    (di < dt → hoje ≤ di → calcular_progresso (some di) (some dt) hoje = 0) ∧
    (di < dt → dt ≤ hoje → calcular_progresso (some di) (some dt) hoje = 100) ∧
    (di < dt → di < hoje → hoje < dt →
      calcular_progresso (some di) (some dt) hoje =
        pyRound2 (100 * ((hoje : ℚ) - (di : ℚ)) / ((dt : ℚ) - (di : ℚ)))) := by
  refine ⟨rfl, rfl, rfl, fun h => ?_, fun h1 h2 => ?_, fun h1 h2 => ?_,
    fun h1 h2 => ?_, fun h1 h2 => ?_, fun h1 h2 h3 => ?_⟩ <;>
      rw [calcular_progresso_some]
  · rw [if_pos h]
  · rw [if_neg (by omega), if_pos (by omega), if_pos h2]
  · rw [if_neg (by omega), if_pos (by omega), if_neg (by omega)]
  · rw [if_neg (by omega), if_neg (by omega), if_pos h2]
  · rw [if_neg (by omega), if_neg (by omega), if_neg (by omega), if_pos h2]
  · rw [if_neg (by omega), if_neg (by omega), if_neg (by omega), if_neg (by omega)]
    congr 1
    push_cast
    ring

/-- Witness for C3 in the interpolation branch: window 0..10 on day 4. -/
theorem c3_progresso_ramos_testemunha :
    calcular_progresso (some 0) (some 10) 4 =
      pyRound2 (100 * ((4 : ℚ) - (0 : ℚ)) / ((10 : ℚ) - (0 : ℚ))) :=
  (c3_progresso_ramos 0 10 4).2.2.2.2.2.2.2.2 (by decide) (by decide) (by decide)

/-- C8: the progress value always lies in the closed interval [0, 100], and
it is a function solely of the two dates and the evaluation day — equal
inputs give equal output. -/
theorem c8_progresso_intervalo (di dt : Option ℤ) (hoje : ℤ) :
    (0 ≤ calcular_progresso di dt hoje ∧ calcular_progresso di dt hoje ≤ 100) ∧
    (∀ di2 dt2 hoje2, di2 = di → dt2 = dt → hoje2 = hoje →
      calcular_progresso di2 dt2 hoje2 = calcular_progresso di dt hoje) := by
  refine ⟨?_, fun di2 dt2 hoje2 h1 h2 h3 => by rw [h1, h2, h3]⟩
  match di, dt with
  | none, none => exact ⟨le_refl 0, by norm_num [calcular_progresso]⟩
  | none, some b => exact ⟨le_refl 0, by norm_num [calcular_progresso]⟩
  | some a, none => exact ⟨le_refl 0, by norm_num [calcular_progresso]⟩
  | some a, some b =>
    rw [calcular_progresso_some]
    split_ifs with h1 h2 h3 h4 h5
    · norm_num
    · norm_num
    · norm_num
    · norm_num
    · norm_num
    · refine pyRound2_mem_Icc _ ?_ ?_
      · have hnum : (0 : ℚ) ≤ ((hoje - a : ℤ) : ℚ) := by exact_mod_cast (by omega : (0 : ℤ) ≤ hoje - a)
        have hden : (0 : ℚ) ≤ ((b - a : ℤ) : ℚ) := by exact_mod_cast (by omega : (0 : ℤ) ≤ b - a)
        positivity
      · have hnum : ((hoje - a : ℤ) : ℚ) < ((b - a : ℤ) : ℚ) := by
          exact_mod_cast (by omega : hoje - a < b - a)
        have hden : (0 : ℚ) < ((b - a : ℤ) : ℚ) := by exact_mod_cast (by omega : (0 : ℤ) < b - a)
        rw [div_mul_eq_mul_div, div_lt_iff₀ hden]
        nlinarith

/-- Witness for C8 at the window 2..7 on day 3. -/
theorem c8_progresso_intervalo_testemunha :
    (0 ≤ calcular_progresso (some 2) (some 7) 3 ∧
      calcular_progresso (some 2) (some 7) 3 ≤ 100) ∧
    calcular_progresso (some 2) (some 7) 3 = calcular_progresso (some 2) (some 7) 3 :=
  ⟨(c8_progresso_intervalo (some 2) (some 7) 3).1,
    (c8_progresso_intervalo (some 2) (some 7) 3).2 (some 2) (some 7) 3 rfl rfl rfl⟩

-- ===========================================================================
-- Claim C7 — inverted date windows are rejected without touching the store
-- ===========================================================================

/-- C7: when the submitted end date precedes the start date, both the
Cadastrar and the Editar submit handlers report an error and leave the
collection exactly as it was — nothing is inserted, updated or silently
corrected. -/
theorem c7_datas_invertidas (store : List Projeto) (f : CadastroForm)
    (sel : String) (hoje : ℤ) (h : f.data_termino < f.data_inicio) :
    ((cadastrarSubmit store f hoje).store = store ∧
      (cadastrarSubmit store f hoje).erro ≠ none) ∧
    ((editarSubmit store sel f hoje).store = store ∧
      (editarSubmit store sel f hoje).erro ≠ none) := by
  simp [cadastrarSubmit, editarSubmit, if_pos h]

/-- Witness for C7: a submission ending on day 3 but starting on day 5. -/
theorem c7_datas_invertidas_testemunha :
    ((cadastrarSubmit [projA] formDatasInvertidas 0).store = [projA] ∧
      (cadastrarSubmit [projA] formDatasInvertidas 0).erro ≠ none) ∧
    ((editarSubmit [projA] "PROJ001" formDatasInvertidas 0).store = [projA] ∧
      (editarSubmit [projA] "PROJ001" formDatasInvertidas 0).erro ≠ none) :=
  c7_datas_invertidas [projA] formDatasInvertidas "PROJ001" 0 (by decide)

-- ===========================================================================
-- Claim C9 — written records are mode-zeroed and derived-consistent
-- ===========================================================================

/-- C9: every record written by the register (Cadastrar) or update (Editar)
operation has the base amounts outside the active mode equal to zero, and its
stored derived fields equal the KPI recomputation from its own stored base
amounts and mode flags. -/
theorem c9_invariante_derivados (ids : List String) (f : CadastroForm)
    (hoje : ℤ) (old : Projeto) :
    (modosZerados (cadastrarProjeto ids f hoje) ∧
      derivadosRecalculados (cadastrarProjeto ids f hoje)) ∧
    (modosZerados (editarProjeto old f hoje) ∧
      derivadosRecalculados (editarProjeto old f hoje)) := by
  cases hb : f.tem_orcamento <;> cases hl : f.linha_base <;>
    simp [modosZerados, derivadosRecalculados, cadastrarProjeto, editarProjeto,
      computeKpis, hb, hl]

/-- Witness for C9: a budget-mode registration stores zero prices and a
saving consistent with the recomputation. -/
theorem c9_invariante_derivados_testemunha :
    ((cadastrarProjeto [] formOrcamento 0).preco_inicial = 0 ∧
      (cadastrarProjeto [] formOrcamento 0).preco_final = 0) ∧
    computeKpis (cadastrarProjeto [] formOrcamento 0).tem_orcamento
        (cadastrarProjeto [] formOrcamento 0).linha_base
        (cadastrarProjeto [] formOrcamento 0).orcamento
        (cadastrarProjeto [] formOrcamento 0).baseline
        (cadastrarProjeto [] formOrcamento 0).melhor_proposta
        (cadastrarProjeto [] formOrcamento 0).preco_inicial
        (cadastrarProjeto [] formOrcamento 0).preco_final =
      ⟨(cadastrarProjeto [] formOrcamento 0).saving_r,
        (cadastrarProjeto [] formOrcamento 0).saving_percent,
        (cadastrarProjeto [] formOrcamento 0).ce_baseline,
        (cadastrarProjeto [] formOrcamento 0).percent_baseline,
        (cadastrarProjeto [] formOrcamento 0).ce_r,
        (cadastrarProjeto [] formOrcamento 0).percent_ce⟩ :=
  ⟨(c9_invariante_derivados [] formOrcamento 0 projA).1.1.2.2.2 (Or.inl rfl),
    (c9_invariante_derivados [] formOrcamento 0 projA).1.2⟩

-- ===========================================================================
-- Claim C10 — parse_currency_input is total
-- ===========================================================================

/-- C10: parse_currency_input always returns a float value: a non-string
input (None) yields 0.0 through the caught AttributeError; a string is
normalised by stripping the currency prefix and the Brazilian separators and
handed to float(...), whose value is returned on success and whose
ValueError yields 0.0; the Brazilian-formatted example and a garbage string
show both outcomes concretely. -/
theorem c10_moeda_total (s : String) (v : PyFloat) :
    parse_currency_input none = PyFloat.finite 0 ∧
    (pyParseFloat (pyStrip (pyReplace (pyReplace (pyReplace s "R$" "") "." "") "," ".")) = none →
      parse_currency_input (some s) = PyFloat.finite 0) ∧
    (pyParseFloat (pyStrip (pyReplace (pyReplace (pyReplace s "R$" "") "." "") "," ".")) = some v →
      parse_currency_input (some s) = v) ∧
    parse_currency_input (some "R$ 1.234,56") = PyFloat.finite (123456 / 100) ∧
    parse_currency_input (some "abc") = PyFloat.finite 0 := by
  refine ⟨rfl, fun h => ?_, fun h => ?_, ?_, by decide⟩
  · simp [parse_currency_input, h]
  · simp [parse_currency_input, h]
  · have hval : parse_currency_input (some "R$ 1.234,56") =
        PyFloat.finite (Rat.divInt 123456 100) := by decide
    rw [hval, Rat.divInt_eq_div]
    norm_num

/-- Witness for C10 on an unparseable string. -/
theorem c10_moeda_total_testemunha :
    parse_currency_input (some "xyz") = PyFloat.finite 0 :=
  (c10_moeda_total "xyz" PyFloat.nan).2.1 (by decide)
